import Mathlib

/-!
Verification of the conversation-context-management subsystem of the Keji
backend (context_manager.py, workers.py, chat.py, websocket.py).

Python strings are modelled as lists of unicode code points (`List Char`);
`len`, slicing, `str.strip` and truthiness are translated accordingly.
Machine arithmetic: the only non-integer arithmetic in the sources is
`len(text) // 3.5` resp. `int(len(text) / 3.5)`.  Since 3.5 = 7/2 is exact
in binary floating point and the lengths involved are far below the range
where division by 3.5 loses integer resolution, both expressions equal the
exact rational floor, i.e. `(2 * len) / 7` in natural-number division; the
embedding uses that form.
-/

/-- A Python `str`, modelled as its sequence of code points. -/
abbrev Str := List Char

/-- The code points CPython treats as whitespace (`Py_UNICODE_ISSPACE`):
tab, newline, vertical tab, form feed, carriage return, the C0
file/group/record/unit separators, space, next line, no-break space,
Ogham space mark, the U+2000–U+200A spaces, line and paragraph
separators, narrow no-break space, medium mathematical space and
ideographic space.  `str.isspace`, `str.strip()` and the regex `\s` on
`str` patterns all use exactly this set. -/
def pyWhitespace : List Nat :=
  [0x09, 0x0A, 0x0B, 0x0C, 0x0D, 0x1C, 0x1D, 0x1E, 0x1F, 0x20,
   0x85, 0xA0, 0x1680,
   0x2000, 0x2001, 0x2002, 0x2003, 0x2004, 0x2005, 0x2006, 0x2007,
   0x2008, 0x2009, 0x200A, 0x2028, 0x2029, 0x202F, 0x205F, 0x3000]

/-- Python `\s` / `str.strip` whitespace (Unicode-aware, see
`pyWhitespace`). -/
def pyIsSpace (c : Char) : Bool :=
  pyWhitespace.contains c.toNat

/-- Python `str.strip()`: remove leading and trailing whitespace. -/
def pyStrip (s : Str) : Str :=
  ((s.dropWhile pyIsSpace).reverse.dropWhile pyIsSpace).reverse

/-- An LLM-facing message dict `{"role": ..., "content": ...}`. -/
structure Msg where
  role : Str
  content : Str
deriving DecidableEq, Repr

/-- A persisted `Message` row as far as the context subsystem reads it:
`sender` ("user"/"bot") and `text`. -/
structure DBMsg where
  sender : Str
  text : Str
deriving DecidableEq, Repr

/-- The sender-to-role conversion used in `process_conversation_context`
and `run_summary_worker`:
`{"role": msg.sender if msg.sender != "bot" else "assistant", "content": msg.text}`. -/
def dbToDict (m : DBMsg) : Msg :=
  ⟨if m.sender = "bot".data then "assistant".data else m.sender, m.text⟩

/-- context_manager.TOKEN_THRESHOLD. -/
def TOKEN_THRESHOLD : Nat := 3000

/-- context_manager.RECENT_MESSAGES_COUNT. -/
def RECENT_MESSAGES_COUNT : Nat := 10

/-- context_manager.count_tokens.  `None` input yields 0, empty text yields 0,
otherwise `max(len(text) // 3.5, 1)`; the float floor-division equals the
exact floor `(2 * len) / 7` at these magnitudes (see the header comment). -/
def count_tokens (text : Option Str) : Nat :=
  match text with
  | none => 0
  | some t => if t = [] then 0 else max (2 * t.length / 7) 1

/-- workers.count_tokens_simple: `max(int(len(str(text)) / 3.5), 1)` for
non-empty text, 0 otherwise (`int` truncation = floor for non-negative). -/
def count_tokens_simple (text : Str) : Nat :=
  if text = [] then 0 else max (2 * text.length / 7) 1

/-- context_manager.count_messages_tokens (the workers copy only differs by
calling count_tokens_simple, which agrees with count_tokens on strings):
sum of `count_tokens(msg content) + 4` over the list. -/
def count_messages_tokens (messages : List Msg) : Nat :=
  messages.foldl (fun total msg => total + (count_tokens (some msg.content) + 4)) 0

/-- context_manager.should_summarize:
`total = history + summary + new; return total > threshold`. -/
def should_summarize (history_tokens summary_tokens new_message_tokens : Nat)
    (threshold : Nat := TOKEN_THRESHOLD) : Bool :=
  history_tokens + summary_tokens + new_message_tokens > threshold

/-- workers.TOKEN_THRESHOLD_FOR_SUMMARY. -/
def TOKEN_THRESHOLD_FOR_SUMMARY : Nat := 2000

/-- workers.RECENT_MESSAGES_TO_KEEP. -/
def RECENT_MESSAGES_TO_KEEP : Nat := 10

/-- The token trigger of workers.run_summary_worker: the conversation is
skipped when `total_tokens < TOKEN_THRESHOLD_FOR_SUMMARY`
(`if total_tokens < TOKEN_THRESHOLD_FOR_SUMMARY: continue`), i.e. the
worker proceeds to summarize exactly when the total is ≥ the threshold.
There is no new-message term: the worker runs outside any turn. -/
def worker_token_trigger (history_tokens summary_tokens : Nat) : Bool :=
  ¬ (history_tokens + summary_tokens < TOKEN_THRESHOLD_FOR_SUMMARY)

/-- The fallback summary of context_manager.generate_summary:
`f"Conversation covering {len(messages)} messages about food recommendations and dietary preferences."`. -/
def fallback_summary (n : Nat) : Str :=
  ("Conversation covering " ++ toString n
    ++ " messages about food recommendations and dietary preferences.").data

/-- The fallback summary of workers.generate_summary_sync:
`f"Conversation covering {len(messages)} messages about food recommendations and preferences."`. -/
def fallback_summary_sync (n : Nat) : Str :=
  ("Conversation covering " ++ toString n
    ++ " messages about food recommendations and preferences.").data

/-- context_manager.generate_summary.  The OpenAI call is the external
collaborator; its outcome is passed in as `llm` (`Except` models the
try/except around the call).  On success the code returns
`response.choices[0].message.content.strip()`; on any exception it returns
the deterministic fallback.  `existing_summary` only affects the prompt
sent to the model, never the result shape. -/
def generate_summary (messages : List Msg) (existing_summary : Option Str)
    (llm : Except Str Str) : Str :=
  match llm with
  | .ok content => pyStrip content
  | .error _ => fallback_summary messages.length

/-- workers.generate_summary_sync.  `_call` strips the content and wraps the
outcome in a success/error dict; on success the worker returns the content,
on error (or an exception) the deterministic fallback. -/
def generate_summary_sync (messages : List Msg) (existing_summary : Option Str)
    (llm : Except Str Str) : Str :=
  match llm with
  | .ok content => pyStrip content
  | .error _ => fallback_summary_sync messages.length

/-- The fixed marker prepended to the memory summary in
context_manager.filter_messages_for_llm. -/
def CONTEXT_HEADER : Str :=
  "CONVERSATION CONTEXT (Summary of earlier messages):\n".data

/-- context_manager.filter_messages_for_llm.
`if memory_summary:` is Python truthiness: `None` and `""` are both skipped.
`all_messages[-recent_count:] if len(all_messages) > recent_count else all_messages`:
for `recent_count = 0` the slice `[-0:]` is `[0:]`, i.e. the whole list —
that Python quirk is modelled by the inner `if recent_count = 0` branch. -/
def filter_messages_for_llm (all_messages : List Msg)
    (memory_summary : Option Str := none)
    (recent_count : Nat := RECENT_MESSAGES_COUNT) : List Msg :=
  let filtered : List Msg :=
    match memory_summary with
    | some s => if s ≠ [] then [⟨"system".data, CONTEXT_HEADER ++ s⟩] else []
    | none => []
  let recent : List Msg :=
    if all_messages.length > recent_count then
      if recent_count = 0 then all_messages
      else all_messages.drop (all_messages.length - recent_count)
    else all_messages
  filtered ++ recent

/-- The persisted `Conversation` state read and written by the
summarization step. -/
structure Conv where
  messages : List DBMsg
  memory_summary : Option Str
  pruned_count : Nat
deriving DecidableEq, Repr

/-- The `older` slice chosen by context_manager.process_conversation_context:
`message_dicts[:-RECENT_MESSAGES_COUNT]` (and identically
`message_dicts[:-RECENT_MESSAGES_TO_KEEP]` in workers.run_summary_worker).
A Python slice `[:-k]` is the first `len - k` elements (empty when
`len ≤ k`), which is `take (len - k)` in truncated subtraction. -/
def messages_to_summarize (message_dicts : List Msg) : List Msg :=
  message_dicts.take (message_dicts.length - RECENT_MESSAGES_COUNT)

/-- context_manager.process_conversation_context, over the `Conv` state.
Returns (filtered messages for the LLM, summarization_occurred, updated
conversation).  The summarizer call outcome is the `llm` parameter.
Mirrors the source: compute token counts, run `should_summarize` with the
default threshold, and if due and more than `RECENT_MESSAGES_COUNT`
messages exist, summarize `message_dicts[:-RECENT_MESSAGES_COUNT]`,
overwrite `memory_summary` and set `pruned_count` to the slice length;
finally filter with the (possibly updated) summary. -/
def process_conversation_context (conv : Conv) (new_user_message : Str)
    (llm : Except Str Str) : List Msg × Bool × Conv :=
  let message_dicts := conv.messages.map dbToDict
  let history_tokens := count_messages_tokens message_dicts
  let summary_tokens := count_tokens (some (conv.memory_summary.getD []))
  let new_message_tokens := count_tokens (some new_user_message)
  let step : Bool × Conv :=
    if should_summarize history_tokens summary_tokens new_message_tokens then
      if message_dicts.length > RECENT_MESSAGES_COUNT then
        let older := messages_to_summarize message_dicts
        let new_summary := generate_summary older conv.memory_summary llm
        (true, { conv with
                  memory_summary := some new_summary,
                  pruned_count := older.length })
      else (false, conv)
    else (false, conv)
  let filtered := filter_messages_for_llm message_dicts step.2.memory_summary
    RECENT_MESSAGES_COUNT
  (filtered, step.1, step.2)

/-! ## Response chunker (chat.split_into_chunks = websocket.split_into_chunks) -/

/-- Sentence-ending punctuation of the chunker regex class `[.!?]`. -/
def isPunct (c : Char) : Bool := c = '.' ∨ c = '!' ∨ c = '?'

/-- Leftmost match of the regex `[.!?]+\s+` in a string: returns
`(before, separator, after)` where `separator` is a maximal run of
sentence punctuation followed by a maximal run of whitespace (the greedy
match; a punctuation run not followed by whitespace cannot match at any
of its positions, so the scan moves past it one character at a time,
exactly as the backtracking engine does). -/
def findSep : List Char → Option (List Char × List Char × List Char)
  | [] => none
  | c :: cs =>
    if isPunct c then
      if ((c :: cs).dropWhile isPunct).takeWhile pyIsSpace = [] then
        match findSep cs with
        | some (b, s, a) => some (c :: b, s, a)
        | none => none
      else
        some ([],
          (c :: cs).takeWhile isPunct
            ++ ((c :: cs).dropWhile isPunct).takeWhile pyIsSpace,
          ((c :: cs).dropWhile isPunct).dropWhile pyIsSpace)
    else
      match findSep cs with
      | some (b, s, a) => some (c :: b, s, a)
      | none => none

/-- `re.split(r'([.!?]+\s+)', text)` with explicit fuel: the pieces and the
captured separators, alternating, starting and ending with a piece.  Each
match consumes at least one character, so `text.length + 1` units of fuel
(supplied by `reSplit`) always suffice; the fuel-exhausted branch is
unreachable from `reSplit`. -/
def reSplitF : Nat → List Char → List (List Char)
  | 0, l => [l]
  | fuel + 1, l =>
    match findSep l with
    | none => [l]
    | some (b, s, a) => b :: s :: reSplitF fuel a

/-- `re.split(r'([.!?]+\s+)', text)`. -/
def reSplit (l : List Char) : List (List Char) := reSplitF (l.length + 1) l

/-- The chunker loop `for i in range(0, len(sentences), 2)` reads the split
result as (sentence, following separator) pairs, the final sentence paired
with `""` when no separator follows. -/
def pairUp : List (List Char) → List (List Char × List Char)
  | [] => []
  | [x] => [(x, [])]
  | x :: y :: rest => (x, y) :: pairUp rest

/-- The accumulation loop of split_into_chunks: `full = sentence + punctuation`;
when the current chunk is non-empty and would exceed `max_chunk_size`, the
current chunk is flushed (stripped) and `full` starts the next chunk,
otherwise `full` is appended.  Returns (flushed chunks, final current chunk). -/
def buildChunks (max_chunk_size : Nat) :
    List (List Char × List Char) → List Char → List (List Char) × List Char
  | [], current_chunk => ([], current_chunk)
  | (sentence, punctuation) :: rest, current_chunk =>
    let full_sentence := sentence ++ punctuation
    if current_chunk ≠ [] ∧
        current_chunk.length + full_sentence.length > max_chunk_size then
      let r := buildChunks max_chunk_size rest full_sentence
      (pyStrip current_chunk :: r.1, r.2)
    else
      buildChunks max_chunk_size rest (current_chunk ++ full_sentence)

/-- chat.split_into_chunks (identical in websocket.py): split at sentence
boundaries, greedily pack sentences into chunks of at most
`max_chunk_size` characters (a single oversized sentence is kept whole),
strip each emitted chunk, append the stripped remainder if non-blank, and
fall back to `[text]` when nothing was emitted. -/
def split_into_chunks (text : List Char) (max_chunk_size : Nat := 150) :
    List (List Char) :=
  let sentences := reSplit text
  let r := buildChunks max_chunk_size (pairUp sentences) []
  let chunks := if pyStrip r.2 ≠ [] then r.1 ++ [pyStrip r.2] else r.1
  if chunks ≠ [] then chunks else [text]

/-! ## Personalization cadence (chat.should_send_context_info =
websocket.should_send_context_info) -/

/-- A history row as read by should_send_context_info: the sender and the
hour of the row timestamp (`msg.timestamp.hour`, 0–23 server-local). -/
structure HistMsg where
  sender : Str
  hour : Nat
deriving DecidableEq, Repr

/-- chat.get_time_of_day (identical in websocket.py), on the current hour. -/
def get_time_of_day (hour : Nat) : Str :=
  if 5 ≤ hour ∧ hour < 12 then "morning".data
  else if 12 ≤ hour ∧ hour < 16 then "afternoon".data
  else if 16 ≤ hour ∧ hour < 22 then "evening".data
  else "night".data

/-- chat.should_send_context_info (identical in websocket.py), with the
current hour passed explicitly.  Empty or short history (< 2 rows) sends
both.  Otherwise `send_name = (user message count) % 10 == 1`, and
`send_time` is decided by the first bot row of the reversed history (its
in-line bucket computation repeats get_time_of_day), defaulting to true
when no bot row exists (the for-else branch). -/
def should_send_context_info (now_hour : Nat) (conversation_history : List HistMsg) :
    Bool × Bool × Str :=
  let current_time := get_time_of_day now_hour
  if conversation_history.length < 2 then (true, true, current_time)
  else
    let user_message_count :=
      (conversation_history.filter (fun m => m.sender = "user".data)).length
    let should_send_name := user_message_count % 10 = 1
    let should_send_time :=
      match conversation_history.reverse.find? (fun m => m.sender = "bot".data) with
      | some msg => get_time_of_day msg.hour ≠ current_time
      | none => true
    (should_send_time, should_send_name, current_time)

/-! ## Turn orchestrator: structured-result dispatch and inbound validation
(chat.chat / websocket.handle_send_message) -/

/-- The nested `recommendation` dict of a `chat_and_recommendation` result. -/
structure RecPayload where
  title : Option Str
  content : Option Str
deriving DecidableEq, Repr

/-- A structured generator result dict as the handlers read it: its `type`
and the optional keys each branch inspects (`Option` = key present or
absent; Python `get` with no default yields `None` for an absent key). -/
structure BotReply where
  rtype : Str
  title : Option Str
  content : Option Str
  chat : Option Str
  recommendation : Option RecPayload
deriving DecidableEq, Repr

/-- One delivery to the client: an HTTP response body or a socket emit. -/
inductive Event
  | recommendation (title content : Str)
  | message (content : Str)
  | chunk (content : Str) (index total : Nat)
deriving DecidableEq, Repr

/-- The websocket normal-chat flow (websocket.handle_send_message, final
section): empty reply falls back to a fixed line, replies over 100
characters are chunked (each chunk saved as its own bot Message row and
emitted as one chunk event), short replies are saved and emitted whole.
Returns (events emitted, bot Message texts saved). -/
def ws_chat_flow (reply_text0 : Str) : List Event × List Str :=
  let reply_text :=
    if reply_text0 = [] then "Yeah, how can I help you?".data else reply_text0
  if reply_text.length > 100 then
    let chunks := split_into_chunks reply_text 150
    (chunks.enum.map (fun p => Event.chunk p.2 p.1 chunks.length), chunks)
  else ([Event.message reply_text], [reply_text])

/-- The websocket dispatch for a `recommendation`-typed result
(websocket.handle_send_message lines 827–843): with both `title` and
`content` keys present, emit the single `receive_recommendation` event and
return early, saving nothing; otherwise downgrade to a chat reply (the
`get("content", default)` default applies only when the key is absent)
and continue with the normal chat flow. -/
def ws_dispatch (r : BotReply) : List Event × List Str :=
  if r.rtype = "recommendation".data then
    if r.title.isSome ∧ r.content.isSome then
      ([Event.recommendation (r.title.getD []) (r.content.getD [])], [])
    else
      let reply_text :=
        match r.content with
        | some c => c
        | none => "Here\x27s a food suggestion for you.".data
      ws_chat_flow reply_text
  else ws_chat_flow (r.content.getD [])

/-- websocket.handle_send_message, step 7: the `chat_and_recommendation`
branch delivers the chat part first (chunked over 100 characters, each
chunk saved), then emits the recommendation without saving it; an
incomplete hybrid is reshaped and falls through to the plain dispatch. -/
def ws_handle_response (r : BotReply) : List Event × List Str :=
  if r.rtype = "chat_and_recommendation".data then
    let chat_text := r.chat.getD []
    let rec0 := r.recommendation.getD ⟨none, none⟩
    let rtitle := rec0.title.getD []
    let rcontent := rec0.content.getD []
    if chat_text ≠ [] ∧ rtitle ≠ [] ∧ rcontent ≠ [] then
      let chatPart :=
        if chat_text.length > 100 then
          let chunks := split_into_chunks chat_text 150
          (chunks.enum.map (fun p => Event.chunk p.2 p.1 chunks.length), chunks)
        else ([Event.message chat_text], [chat_text])
      (chatPart.1 ++ [Event.recommendation rtitle rcontent], chatPart.2)
    else if rtitle ≠ [] ∧ rcontent ≠ [] then
      ws_dispatch ⟨"recommendation".data, some rtitle, some rcontent, none, none⟩
    else if chat_text ≠ [] then
      ws_dispatch ⟨"chat".data, none, some chat_text, none, none⟩
    else
      ws_dispatch ⟨"chat".data, none, some "How can I help you?".data, none, none⟩
  else ws_dispatch r

/-- chat.chat, step 7 (HTTP): a well-formed recommendation is returned as
the single JSON response without any DB write; a malformed one is
downgraded to a chat response, also without a DB write.  A chat reply is
chunked only when streaming was requested and it exceeds 100 characters
(each chunk saved); otherwise it is saved whole and returned as one
response.  Returns (events delivered, bot Message texts saved). -/
def http_handle_response (stream_response : Bool) (r : BotReply) :
    List Event × List Str :=
  if r.rtype = "recommendation".data then
    if r.title.isSome ∧ r.content.isSome then
      ([Event.recommendation (r.title.getD []) (r.content.getD [])], [])
    else
      let reply_text :=
        match r.content with
        | some c => c
        | none => "Here\x27s a food suggestion for you.".data
      ([Event.message reply_text], [])
  else
    let rt0 := r.content.getD []
    let reply_text := if rt0 = [] then "Yeah, how can I help you?".data else rt0
    if stream_response ∧ reply_text.length > 100 then
      let chunks := split_into_chunks reply_text 150
      (chunks.enum.map (fun p => Event.chunk p.2 p.1 chunks.length), chunks)
    else ([Event.message reply_text], [reply_text])

/-- chat.accept_recommendation: the explicit accept action persists the
recommendation as one bot Message with text `f"{title}: {content}"`. -/
def accept_recommendation (title content : Str) : List Str :=
  [title ++ ": ".data ++ content]

/-- The inbound-validation failure taxonomy. -/
inductive ValidationError
  | EmptyMessage
  | MessageTooLong
  | TooManyAttachments
deriving DecidableEq, Repr

/-- chat.chat inbound validation (HTTP), in source order:
`request.form.get("message")` may be absent (`none`); blank (falsy or
whitespace-only) text is rejected, then raw length > 5000, then
`if files and len(files) > MAX_ATTACHMENTS` with MAX_ATTACHMENTS = 2. -/
def http_validate (user_message : Option Str) (files : List Str) :
    Option ValidationError :=
  match user_message with
  | none => some .EmptyMessage
  | some m =>
    if m = [] ∨ pyStrip m = [] then some .EmptyMessage
    else if m.length > 5000 then some .MessageTooLong
    else if files ≠ [] ∧ files.length > 2 then some .TooManyAttachments
    else none

/-- The effective attachment names collected by websocket.handle_send_message:
a falsy filename is replaced by `f"upload-{index}"`, a truthy one is
stripped, and names that strip to empty are dropped. -/
def ws_clean_names (files : List Str) : List Str :=
  (files.enum.map (fun p =>
    if p.2 ≠ [] then pyStrip p.2 else ("upload-".data ++ (toString p.1).data))).filter
    (fun n => n ≠ [])

/-- websocket.handle_send_message inbound validation, in source order:
more than MAX_ATTACHMENTS (= 2) files is rejected first; blank text is
rejected only when no effective attachment name survives, and otherwise
the persisted text is the empty string; non-blank text is stripped, and
the 5000-character cap is applied to that (possibly empty) result.
Returns the text that will be persisted on success. -/
def ws_validate (raw_user_message : Str) (files : List Str) :
    Except ValidationError Str :=
  if files.length > 2 then .error .TooManyAttachments
  else if raw_user_message = [] ∨ pyStrip raw_user_message = [] then
    if ws_clean_names files = [] then .error .EmptyMessage
    else if ([] : Str).length > 5000 then .error .MessageTooLong
    else .ok []
  else if (pyStrip raw_user_message).length > 5000 then .error .MessageTooLong
  else .ok (pyStrip raw_user_message)

/-- What one inbound turn did: the validation outcome and the rows written /
events delivered.  `conversations_created` counts Conversation rows
created by the find-or-create step. -/
structure TurnResult where
  error : Option ValidationError
  conversations_created : Nat
  user_messages_saved : List Str
  events : List Event
  bot_messages_saved : List Str
deriving DecidableEq, Repr

/-- chat.chat as a turn skeleton: validation precedes the find-or-create of
the Conversation and the user-Message insert; on a validation error the
handler returns 400 having touched nothing.  The generator result is the
`bot_reply` parameter. -/
def http_chat_turn (user_message : Option Str) (files : List Str)
    (conversation_exists : Bool) (bot_reply : BotReply)
    (stream_response : Bool) : TurnResult :=
  match http_validate user_message files with
  | some e => ⟨some e, 0, [], [], []⟩
  | none =>
    let handled := http_handle_response stream_response bot_reply
    ⟨none, if conversation_exists then 0 else 1, [user_message.getD []],
      handled.1, handled.2⟩

/-- websocket.handle_send_message as a turn skeleton (text-only attachment
metadata; the development-only upload acknowledgement messages are elided):
validation precedes all persistence. -/
def ws_chat_turn (raw_user_message : Str) (files : List Str)
    (conversation_exists : Bool) (bot_reply : BotReply) : TurnResult :=
  match ws_validate raw_user_message files with
  | .error e => ⟨some e, 0, [], [], []⟩
  | .ok m =>
    let handled := ws_handle_response bot_reply
    ⟨none, if conversation_exists then 0 else 1, [m], handled.1, handled.2⟩


/-! ## Concrete fixtures used by the counterexamples and witnesses -/

/-- A 900-character user message row; 12 of them put the history over the
3000-token threshold (each counts 2·900/7 + 4 = 261 tokens). -/
def C1mk (c : Char) : DBMsg := ⟨"user".data, List.replicate 900 c⟩

/-- A 12-message conversation with no summary yet. -/
def C1conv0 : Conv := ⟨("abcdefghijkl".data).map C1mk, none, 0⟩

/-- A failing summarizer call (the code then uses its deterministic
fallback, keeping the scenario fully concrete). -/
def C1llm : Except Str Str := .error "connection error".data

/-- The conversation after the first summarization has succeeded
(it records pruned_count = 2). -/
def C1conv1 : Conv := (process_conversation_context C1conv0 "hi".data C1llm).2.2

/-- The same conversation after two further messages arrive. -/
def C1conv2 : Conv :=
  { C1conv1 with messages := C1conv1.messages ++ [C1mk 'm', C1mk 'n'] }

/-- Two sentences of 100 characters each: the chunker must split after the
first, and the flush strips the inter-sentence space. -/
def C3text : Str :=
  List.replicate 100 'a' ++ ". ".data ++ List.replicate 100 'b'

/-! ## Lemmas about the chunker -/

/-- A successful separator search decomposes the input:
`before ++ separator ++ after = input`, with a non-empty separator. -/
theorem findSep_eq : ∀ (l b s a : List Char),
    findSep l = some (b, s, a) → b ++ s ++ a = l ∧ s ≠ []
  | [], b, s, a => by simp [findSep]
  | c :: cs, b, s, a => by
    intro h
    have hd1 : (c :: cs).takeWhile isPunct ++ (c :: cs).dropWhile isPunct
        = c :: cs := List.takeWhile_append_dropWhile _ _
    have hd2 : ((c :: cs).dropWhile isPunct).takeWhile pyIsSpace
          ++ ((c :: cs).dropWhile isPunct).dropWhile pyIsSpace
        = (c :: cs).dropWhile isPunct := List.takeWhile_append_dropWhile _ _
    simp only [findSep] at h
    split at h
    · rename_i hp
      split at h
      · split at h
        · rename_i b1 s1 a1 hfs
          simp only [Option.some.injEq, Prod.mk.injEq] at h
          obtain ⟨hb, hs, ha⟩ := h
          obtain ⟨ih1, ih2⟩ := findSep_eq cs b1 s1 a1 hfs
          subst hb; subst hs; subst ha
          exact ⟨by simpa using ih1, ih2⟩
        · exact absurd h (by simp)
      · rename_i hw
        simp only [Option.some.injEq, Prod.mk.injEq] at h
        obtain ⟨hb, hs, ha⟩ := h
        subst hb; subst hs; subst ha
        refine ⟨?_, ?_⟩
        · simp only [List.nil_append, List.append_assoc]
          rw [hd2, hd1]
        · intro hcon
          rcases List.append_eq_nil.mp hcon with ⟨h1, -⟩
          rw [List.takeWhile_cons_of_pos hp] at h1
          exact List.cons_ne_nil _ _ h1
    · split at h
      · rename_i b1 s1 a1 hfs
        simp only [Option.some.injEq, Prod.mk.injEq] at h
        obtain ⟨hb, hs, ha⟩ := h
        obtain ⟨ih1, ih2⟩ := findSep_eq cs b1 s1 a1 hfs
        subst hb; subst hs; subst ha
        exact ⟨by simpa using ih1, ih2⟩
      · exact absurd h (by simp)

/-- Concatenating the pieces and separators of the regex split restores the
input, for any amount of fuel. -/
theorem reSplitF_flatten : ∀ (fuel : Nat) (l : List Char),
    (reSplitF fuel l).flatten = l
  | 0, l => by simp [reSplitF]
  | fuel + 1, l => by
    simp only [reSplitF]
    cases hfs : findSep l with
    | none => simp
    | some t =>
      obtain ⟨b, s, a⟩ := t
      obtain ⟨h1, -⟩ := findSep_eq l b s a hfs
      simp only [List.flatten_cons]
      rw [reSplitF_flatten fuel a, ← List.append_assoc, h1]

/-- Concatenating the split restores the input. -/
theorem reSplit_flatten (l : List Char) : (reSplit l).flatten = l :=
  reSplitF_flatten _ l

/-- Pairing pieces with their following separators preserves the total
concatenation. -/
theorem pairUp_flatten : ∀ (pieces : List (List Char)),
    ((pairUp pieces).map (fun p => p.1 ++ p.2)).flatten = pieces.flatten
  | [] => by simp [pairUp]
  | [x] => by simp [pairUp]
  | x :: y :: rest => by
    simp only [pairUp, List.map_cons, List.flatten_cons]
    rw [pairUp_flatten rest, List.append_assoc]

/-- When the whole remaining text fits in the chunk budget together with the
current chunk, the accumulation loop never flushes: it returns no chunks
and the current chunk extended by everything. -/
theorem buildChunks_no_split (max_chunk_size : Nat) :
    ∀ (pairs : List (List Char × List Char)) (current : List Char),
    current.length + ((pairs.map (fun p => p.1 ++ p.2)).flatten).length ≤ max_chunk_size →
    buildChunks max_chunk_size pairs current
      = ([], current ++ (pairs.map (fun p => p.1 ++ p.2)).flatten)
  | [], current => by simp [buildChunks]
  | (sentence, punctuation) :: rest, current => by
    intro h
    simp only [List.map_cons, List.flatten_cons, List.length_append] at h
    simp only [buildChunks]
    rw [if_neg]
    · rw [buildChunks_no_split max_chunk_size rest (current ++ (sentence ++ punctuation))
        (by simp only [List.length_append]; omega)]
      simp [List.append_assoc]
    · rintro ⟨-, hgt⟩
      simp only [List.length_append] at hgt
      omega

/-! ## C3: chunk round-trip -/

set_option maxRecDepth 8000 in
/-- C3 (counterexample): for the two-sentence text `'a'*100 + ". " + 'b'*100`
and the default chunk size 150, the chunker splits at the sentence
boundary and strips the flushed chunk, so the space after the period is
lost and concatenating the chunks in index order does not reproduce the
original text. -/
theorem C3_counterexample :
    split_into_chunks C3text 150
        = [List.replicate 100 'a' ++ ['.'], List.replicate 100 'b']
      ∧ (split_into_chunks C3text 150).flatten ≠ C3text := by
  constructor
  · decide
  · decide

/-- C3 (amended): concatenating the chunks in index order reproduces the
text exactly whenever the text equals its own whitespace-strip and either
fits within `max_chunk_size` (single chunk) or contains no sentence
separator at all (single, possibly oversized, chunk — in particular any
text without sentence punctuation).  When the chunker does flush a chunk,
the whitespace following the sentence punctuation at the flush boundary,
and any surrounding whitespace, are stripped away, so the exact round
trip fails in general. -/
theorem C3_amended (text : List Char) (max_chunk_size : Nat)
    (hstrip : pyStrip text = text)
    (hfit : text.length ≤ max_chunk_size ∨ findSep text = none) :
    (split_into_chunks text max_chunk_size).flatten = text := by
  have hpieces :
      ((pairUp (reSplit text)).map (fun p => p.1 ++ p.2)).flatten = text := by
    rw [pairUp_flatten, reSplit_flatten]
  have hbuild :
      buildChunks max_chunk_size (pairUp (reSplit text)) [] = ([], text) := by
    rcases hfit with hlen | hnone
    · have hb := buildChunks_no_split max_chunk_size (pairUp (reSplit text)) []
        (by rw [hpieces]; simpa using hlen)
      rw [hpieces] at hb
      simpa using hb
    · have hre : reSplit text = [text] := by
        simp [reSplit, reSplitF, hnone]
      rw [hre]
      simp [pairUp, buildChunks]
  by_cases htext : text = []
  · subst htext
    simp [split_into_chunks, reSplit, reSplitF, findSep, pairUp, buildChunks,
      pyStrip]
  · have hne : pyStrip text ≠ [] := by rw [hstrip]; exact htext
    simp only [split_into_chunks]
    rw [hbuild]
    simp [hstrip, hne, htext]

/-- C3 (witness): the amended round trip holds at a concrete short
two-sentence text. -/
theorem C3_witness :
    (split_into_chunks "Hello. World.".data 150).flatten = "Hello. World.".data :=
  C3_amended "Hello. World.".data 150 (by decide) (Or.inl (by decide))

/-! ## Lemmas about the context filter -/

/-- For a positive `recent_count`, a falsy summary (absent or empty) makes
the filter return exactly the last `min recent_count N` messages. -/
theorem filter_messages_eq_of_blank (all_messages : List Msg) (R : Nat)
    (hR : 1 ≤ R) (memory_summary : Option Str)
    (hsum : memory_summary = none ∨ memory_summary = some []) :
    filter_messages_for_llm all_messages memory_summary R
      = all_messages.drop (all_messages.length - min R all_messages.length) := by
  have hrec :
      (if all_messages.length > R then
        (if R = 0 then all_messages
          else all_messages.drop (all_messages.length - R))
        else all_messages)
      = all_messages.drop (all_messages.length - min R all_messages.length) := by
    by_cases hlen : all_messages.length > R
    · rw [if_pos hlen, if_neg (by omega)]
      congr 1
      omega
    · rw [if_neg hlen]
      have hmin : min R all_messages.length = all_messages.length := by omega
      rw [hmin, Nat.sub_self, List.drop_zero]
  rcases hsum with h | h <;> subst h <;>
    · simp only [filter_messages_for_llm]
      rw [hrec]
      simp

/-- For a positive `recent_count`, a truthy (non-empty) summary makes the
filter return the synthetic system entry followed by exactly the last
`min recent_count N` messages. -/
theorem filter_messages_eq_of_summary (all_messages : List Msg) (R : Nat)
    (s : Str) (hR : 1 ≤ R) (hs : s ≠ []) :
    filter_messages_for_llm all_messages (some s) R
      = ⟨"system".data, CONTEXT_HEADER ++ s⟩
          :: all_messages.drop (all_messages.length - min R all_messages.length) := by
  have hrec :
      (if all_messages.length > R then
        (if R = 0 then all_messages
          else all_messages.drop (all_messages.length - R))
        else all_messages)
      = all_messages.drop (all_messages.length - min R all_messages.length) := by
    by_cases hlen : all_messages.length > R
    · rw [if_pos hlen, if_neg (by omega)]
      congr 1
      omega
    · rw [if_neg hlen]
      have hmin : min R all_messages.length = all_messages.length := by omega
      rw [hmin, Nat.sub_self, List.drop_zero]
  simp only [filter_messages_for_llm]
  rw [hrec]
  simp [hs]

/-! ## C2: window bound of the context filter -/

/-- C2 (counterexample): at `recent_count = 0` the slice `all_messages[-0:]`
is the whole list, so with a one-message history and a summary the filter
returns 2 entries, breaking the claimed `R + 1 = 1` bound. -/
theorem C2_counterexample :
    (filter_messages_for_llm [⟨"user".data, "hi".data⟩] (some "S".data) 0).length = 2
    ∧ ¬ ((filter_messages_for_llm [⟨"user".data, "hi".data⟩]
          (some "S".data) 0).length ≤ 0 + 1) := by
  constructor
  · decide
  · decide

/-- C2 (amended): for every history, summary and `recent_count = R ≥ 1`, the
filter returns at most R+1 entries, exactly R+1 when N > R and a
*non-empty* summary exists, and the output is the last `min R N` input
messages in order, preceded by at most one synthetic system entry.  For
R = 0 the bound fails because the Python slice `[-0:]` is the whole
list, and an empty-string summary never contributes an entry. -/
theorem C2_amended (all_messages : List Msg) (memory_summary : Option Str)
    (R : Nat) (hR : 1 ≤ R) :
    (filter_messages_for_llm all_messages memory_summary R).length ≤ R + 1
    ∧ (∀ s, memory_summary = some s → s ≠ [] → all_messages.length > R →
        (filter_messages_for_llm all_messages memory_summary R).length = R + 1)
    ∧ ∃ pre, pre.length ≤ 1
        ∧ (∀ p ∈ pre, p.role = "system".data)
        ∧ filter_messages_for_llm all_messages memory_summary R
            = pre ++ all_messages.drop
                (all_messages.length - min R all_messages.length) := by
  have hdroplen :
      (all_messages.drop
        (all_messages.length - min R all_messages.length)).length
      = min R all_messages.length := by
    rw [List.length_drop]
    omega
  by_cases htruthy : ∃ s, memory_summary = some s ∧ s ≠ []
  · obtain ⟨s, hsome, hs⟩ := htruthy
    subst hsome
    have hf := filter_messages_eq_of_summary all_messages R s hR hs
    refine ⟨?_, ?_, [⟨"system".data, CONTEXT_HEADER ++ s⟩], by simp, ?_, by simpa using hf⟩
    · rw [hf]
      simp only [List.length_cons, hdroplen]
      omega
    · intro s2 hs2 hs2ne hlen
      rw [hf]
      simp only [List.length_cons, hdroplen]
      omega
    · intro p hp
      simp only [List.mem_singleton] at hp
      subst hp
      rfl
  · have hsum : memory_summary = none ∨ memory_summary = some [] := by
      cases memory_summary with
      | none => exact Or.inl rfl
      | some s =>
        refine Or.inr ?_
        by_cases hs : s = []
        · subst hs; rfl
        · exact absurd ⟨s, rfl, hs⟩ htruthy
    have hf := filter_messages_eq_of_blank all_messages R hR memory_summary hsum
    refine ⟨?_, ?_, [], by simp, by simp, by simpa using hf⟩
    · rw [hf, hdroplen]
      omega
    · intro s2 hs2 hs2ne hlen
      exfalso
      exact htruthy ⟨s2, hs2, hs2ne⟩

/-- C2 (witness): the amended bound and exact count at a concrete
two-message history, non-empty summary and `recent_count = 1`. -/
theorem C2_witness :
    (filter_messages_for_llm [⟨"user".data, "a".data⟩, ⟨"assistant".data, "b".data⟩]
      (some "S".data) 1).length ≤ 1 + 1
    ∧ (filter_messages_for_llm [⟨"user".data, "a".data⟩, ⟨"assistant".data, "b".data⟩]
      (some "S".data) 1).length = 1 + 1 := by
  have h := C2_amended
    [⟨"user".data, "a".data⟩, ⟨"assistant".data, "b".data⟩]
    (some "S".data) 1 (by decide)
  exact ⟨h.1, h.2.1 "S".data rfl (by decide) (by decide)⟩

/-! ## C10: empty-string summary handled like a missing summary -/

/-- C10 (counterexample): at `recent_count = 0` with no summary the filter
returns the whole one-message history, not the last 0 messages (the
empty list), because the Python slice `[-0:]` is `[0:]`. -/
theorem C10_counterexample :
    filter_messages_for_llm [⟨"user".data, "hi".data⟩] none 0
        = [⟨"user".data, "hi".data⟩]
    ∧ filter_messages_for_llm [⟨"user".data, "hi".data⟩] none 0 ≠ [] := by
  constructor
  · decide
  · decide

/-- C10 (amended): for `recent_count = R ≥ 1`, when `memory_summary` is
`None` or the empty string the filter output contains no synthetic system
entry and equals exactly the last `min R N` messages of the input, so its
length is at most R and the R+1 bound is attained only for a non-empty
summary.  For R = 0 this fails: the Python slice `[-0:]` returns the
whole history instead of the last 0 messages. -/
theorem C10_amended (all_messages : List Msg) (memory_summary : Option Str)
    (R : Nat) (hR : 1 ≤ R)
    (hsum : memory_summary = none ∨ memory_summary = some []) :
    filter_messages_for_llm all_messages memory_summary R
        = all_messages.drop (all_messages.length - min R all_messages.length)
    ∧ (filter_messages_for_llm all_messages memory_summary R).length ≤ R
    ∧ ∀ p ∈ filter_messages_for_llm all_messages memory_summary R,
        p ∈ all_messages := by
  have hf := filter_messages_eq_of_blank all_messages R hR memory_summary hsum
  refine ⟨hf, ?_, ?_⟩
  · rw [hf, List.length_drop]
    omega
  · intro p hp
    rw [hf] at hp
    exact List.mem_of_mem_drop hp

/-- C10 (witness): the amended statement at a concrete two-message history
with an empty-string summary and `recent_count = 1`. -/
theorem C10_witness :
    filter_messages_for_llm [⟨"user".data, "a".data⟩, ⟨"assistant".data, "b".data⟩]
        (some []) 1
      = [⟨"assistant".data, "b".data⟩] := by
  have h := C10_amended
    [⟨"user".data, "a".data⟩, ⟨"assistant".data, "b".data⟩]
    (some []) 1 (by decide) (Or.inr rfl)
  rw [h.1]
  decide

/-! ## C4: token estimator -/

/-- C4 (counterexample): on an 8-character text the estimator returns
`floor(8 / 3.5) = 2`, not the claimed `max(ceil(8 / 3.5), 1) = 3`:
the source uses floor division (`//` resp. `int(...)`), not ceiling. -/
theorem C4_counterexample :
    count_tokens (some (List.replicate 8 'a')) = 2
    ∧ max ⌈((List.replicate 8 'a').length : ℚ) / 3.5⌉ 1 = 3
    ∧ (count_tokens (some (List.replicate 8 'a')) : ℤ)
        ≠ max ⌈((List.replicate 8 'a').length : ℚ) / 3.5⌉ 1 := by
  have h1 : count_tokens (some (List.replicate 8 'a')) = 2 := by decide
  have hlen : ((List.replicate 8 'a').length : ℚ) = 8 := by norm_num
  have h2 : max ⌈((List.replicate 8 'a').length : ℚ) / 3.5⌉ 1 = 3 := by
    rw [hlen]
    have : ((8 : ℚ) / 3.5) = 16 / 7 := by norm_num
    rw [this]
    rw [show (⌈(16 / 7 : ℚ)⌉ : ℤ) = 3 by
      rw [Int.ceil_eq_iff]
      norm_num]
    norm_num
  refine ⟨h1, h2, ?_⟩
  rw [h1, h2]
  decide

/-- C4 (amended): the estimator returns 0 for null or empty input and
`max(floor(length / 3.5), 1) ≥ 1` for non-empty text — floor, not the
claimed ceiling — and the two implementations (context_manager.count_tokens
and workers.count_tokens_simple) agree on every string. -/
theorem C4_amended (t : Str) :
    count_tokens none = 0
    ∧ count_tokens (some ([] : Str)) = 0
    ∧ count_tokens_simple t = count_tokens (some t)
    ∧ (t ≠ [] → count_tokens (some t) = max (2 * t.length / 7) 1
        ∧ 1 ≤ count_tokens (some t)) := by
  refine ⟨rfl, rfl, ?_, ?_⟩
  · by_cases h : t = [] <;> simp [count_tokens, count_tokens_simple, h]
  · intro h
    refine ⟨by simp [count_tokens, h], ?_⟩
    simp only [count_tokens, h, if_neg]
    exact le_max_right _ _

/-- C4 (witness): the amended characterization at the concrete text "abcd". -/
theorem C4_witness :
    count_tokens_simple "abcd".data = count_tokens (some "abcd".data)
    ∧ count_tokens (some "abcd".data) = max (2 * ("abcd".data).length / 7) 1
    ∧ 1 ≤ count_tokens (some "abcd".data) := by
  have h := C4_amended "abcd".data
  exact ⟨h.2.2.1, (h.2.2.2 (by decide)).1, (h.2.2.2 (by decide)).2⟩

/-! ## C5: summarization trigger threshold -/

/-- C5 (counterexample): at the boundary (total exactly equal to its
threshold, with no new message in flight) the background worker fires —
it only skips strictly below the threshold — while the claim says the
trigger must return false at the boundary. -/
theorem C5_counterexample :
    worker_token_trigger TOKEN_THRESHOLD_FOR_SUMMARY 0 = true
    ∧ ¬ (TOKEN_THRESHOLD_FOR_SUMMARY + 0 + 0 > TOKEN_THRESHOLD_FOR_SUMMARY) := by
  constructor
  · decide
  · decide

/-- C5 (amended): the inline trigger `should_summarize` fires iff
`history + summary + new > threshold` (so it is false at the boundary),
but the deferred background worker fires iff `history + summary` is at
least its own threshold of 2000 — it has no new-message term and fires at
the boundary value. -/
theorem C5_amended (h s n t : Nat) :
    (should_summarize h s n t = true ↔ h + s + n > t)
    ∧ (worker_token_trigger h s = true ↔ TOKEN_THRESHOLD_FOR_SUMMARY ≤ h + s) := by
  constructor
  · simp [should_summarize]
  · simp only [worker_token_trigger]
    constructor
    · intro hb
      simp only [decide_eq_true_eq, Nat.not_lt] at hb
      exact hb
    · intro hb
      simp only [decide_eq_true_eq, Nat.not_lt]
      exact hb

/-! ## C9: summarizer fallback on failure -/

/-- C9: the summary generator is total over every collaborator outcome: on
a failed LLM call (any error) both implementations return their
deterministic placeholder naming the number of messages covered, and on
success they return the stripped model output — no error is ever
propagated to the caller. -/
theorem C9_theorem (messages : List Msg) (existing : Option Str)
    (err content : Str) :
    generate_summary messages existing (.error err)
        = fallback_summary messages.length
    ∧ generate_summary messages existing (.ok content) = pyStrip content
    ∧ generate_summary_sync messages existing (.error err)
        = fallback_summary_sync messages.length
    ∧ generate_summary_sync messages existing (.ok content) = pyStrip content :=
  ⟨rfl, rfl, rfl, rfl⟩

/-! ## C7: personalization cadence -/

/-- C7: `send_name` is true exactly when the user-message count is ≡ 1
mod 10 or the history is shorter than 2 rows, and `send_time` is true
exactly when the history is shorter than 2 rows, no bot row exists, or
the most recent bot row sits in a different time-of-day bucket than the
current hour. -/
theorem C7_theorem (now_hour : Nat) (history : List HistMsg) :
    ((should_send_context_info now_hour history).2.1 = true ↔
      ((history.filter (fun m => m.sender = "user".data)).length % 10 = 1
        ∨ history.length < 2))
    ∧ ((should_send_context_info now_hour history).1 = true ↔
      (history.length < 2
        ∨ history.reverse.find? (fun m => m.sender = "bot".data) = none
        ∨ ∃ m, history.reverse.find? (fun m => m.sender = "bot".data) = some m
            ∧ get_time_of_day m.hour ≠ get_time_of_day now_hour)) := by
  by_cases hshort : history.length < 2
  · simp [should_send_context_info, hshort]
  · simp only [should_send_context_info, if_neg hshort]
    constructor
    · simp [hshort]
    · cases hfind : history.reverse.find? (fun m => m.sender = "bot".data) with
      | none => simp [hfind, hshort]
      | some m => simp [hfind, hshort]

/-! ## C6: recommendations are delivered as one event and not persisted -/

/-- C6: a generator result of type `recommendation` carrying both `title`
and `content` is delivered as exactly one event by both the HTTP and the
WebSocket handler, regardless of content length, and neither handler
writes any bot Message row for it in that turn; only the separate
explicit accept action (`accept_recommendation`) writes it, as a single
bot Message. -/
theorem C6_theorem (r : BotReply) (stream_response : Bool) (t c : Str)
    (hr : r.rtype = "recommendation".data)
    (ht : r.title = some t) (hc : r.content = some c) :
    http_handle_response stream_response r = ([Event.recommendation t c], [])
    ∧ ws_handle_response r = ([Event.recommendation t c], [])
    ∧ (accept_recommendation t c).length = 1 := by
  have hne : r.rtype ≠ "chat_and_recommendation".data := by
    rw [hr]; decide
  refine ⟨?_, ?_, rfl⟩
  · simp [http_handle_response, hr, ht, hc]
  · simp [ws_handle_response, hne, ws_dispatch, hr, ht, hc]

/-- C6 (witness): a concrete recommendation with a 200-character content is
delivered as one event and persists nothing in both handlers. -/
theorem C6_witness :
    http_handle_response true
        ⟨"recommendation".data, some "Jollof Rice".data,
          some (List.replicate 200 'x'), none, none⟩
      = ([Event.recommendation "Jollof Rice".data (List.replicate 200 'x')], [])
    ∧ ws_handle_response
        ⟨"recommendation".data, some "Jollof Rice".data,
          some (List.replicate 200 'x'), none, none⟩
      = ([Event.recommendation "Jollof Rice".data (List.replicate 200 'x')], [])
    ∧ (accept_recommendation "Jollof Rice".data (List.replicate 200 'x')).length
      = 1 :=
  C6_theorem
    ⟨"recommendation".data, some "Jollof Rice".data,
      some (List.replicate 200 'x'), none, none⟩
    true "Jollof Rice".data (List.replicate 200 'x') rfl rfl rfl

/-! ## C8: inbound validation precedes all persistence -/

/-- C8 (counterexample): in the WebSocket handler a turn with blank text but
one attachment is *not* rejected — it passes validation and persists an
empty user Message row — contradicting the claim that every blank-text
turn is rejected before any persistence. -/
theorem C8_counterexample :
    (ws_chat_turn [] ["photo.png".data] true
        ⟨"chat".data, none, some "ok.".data, none, none⟩).error = none
    ∧ (ws_chat_turn [] ["photo.png".data] true
        ⟨"chat".data, none, some "ok.".data, none, none⟩).user_messages_saved
      = [[]] := by
  constructor
  · decide
  · decide

/-- C8 (amended): in the HTTP handler, a turn is rejected — with no
Conversation created and no Message appended — exactly when the text is
blank, the raw text exceeds 5000 characters, or more than 2 attachments
are sent.  In the WebSocket handler a validation failure likewise
precedes all persistence, but the acceptance condition differs: a turn
passes iff it has at most 2 attachments and either its stripped text is
non-blank and at most 5000 characters, or the text is blank but at least
one effective attachment name is present (the blank text is then
persisted as an empty user Message). -/
theorem C8_amended :
    (∀ (om : Option Str) (files : List Str) (ce : Bool) (r : BotReply)
        (st : Bool) (e : ValidationError),
      http_validate om files = some e →
        http_chat_turn om files ce r st = ⟨some e, 0, [], [], []⟩)
    ∧ (∀ (om : Option Str) (files : List Str),
        http_validate om files = none ↔
          ∃ m, om = some m ∧ ¬ (m = [] ∨ pyStrip m = []) ∧ m.length ≤ 5000
            ∧ ¬ (files ≠ [] ∧ files.length > 2))
    ∧ (∀ (m : Str) (files : List Str) (ce : Bool) (r : BotReply)
        (e : ValidationError),
      ws_validate m files = .error e →
        ws_chat_turn m files ce r = ⟨some e, 0, [], [], []⟩)
    ∧ (∀ (m : Str) (files : List Str),
        (∃ t, ws_validate m files = .ok t) ↔
          (files.length ≤ 2
            ∧ ((¬ (m = [] ∨ pyStrip m = []) ∧ (pyStrip m).length ≤ 5000)
              ∨ ((m = [] ∨ pyStrip m = []) ∧ ws_clean_names files ≠ [])))) := by
  refine ⟨?_, ?_, ?_, ?_⟩
  · intro om files ce r st e h
    simp only [http_chat_turn, h]
  · intro om files
    cases om with
    | none => simp [http_validate]
    | some m =>
      simp only [http_validate]
      split_ifs with h1 h2 h3
      · simp only [Option.some.injEq]
        constructor
        · intro hcon; exact absurd hcon (by simp)
        · rintro ⟨m2, hm2, hno, -, -⟩
          subst hm2
          exact absurd h1 hno
      · simp only [Option.some.injEq]
        constructor
        · intro hcon; exact absurd hcon (by simp)
        · rintro ⟨m2, hm2, -, hlen, -⟩
          subst hm2
          omega
      · simp only [Option.some.injEq]
        constructor
        · intro hcon; exact absurd hcon (by simp)
        · rintro ⟨m2, hm2, -, -, hfiles⟩
          subst hm2
          exact absurd h3 hfiles
      · constructor
        · intro _
          exact ⟨m, rfl, h1, by omega, h3⟩
        · intro _
          rfl
  · intro m files ce r e h
    simp only [ws_chat_turn, h]
  · intro m files
    simp only [ws_validate]
    split_ifs with h1 h2 h3 h4 h5
    · constructor
      · rintro ⟨t, ht⟩; exact absurd ht (by simp)
      · rintro ⟨hfiles, -⟩; omega
    · constructor
      · rintro ⟨t, ht⟩; exact absurd ht (by simp)
      · rintro ⟨-, hcase⟩
        rcases hcase with ⟨hno, -⟩ | ⟨-, hnames⟩
        · exact absurd h2 hno
        · exact absurd h3 hnames
    · constructor
      · rintro ⟨t, ht⟩; exact absurd ht (by simp)
      · intro _
        simp at h4
    · constructor
      · intro _
        exact ⟨by omega, Or.inr ⟨h2, h3⟩⟩
      · intro _
        exact ⟨[], rfl⟩
    · constructor
      · rintro ⟨t, ht⟩; exact absurd ht (by simp)
      · rintro ⟨-, hcase⟩
        rcases hcase with ⟨-, hlen⟩ | ⟨hblank, -⟩
        · omega
        · exact absurd hblank h2
    · constructor
      · intro _
        exact ⟨by omega, Or.inl ⟨h2, by omega⟩⟩
      · intro _
        exact ⟨pyStrip m, rfl⟩

/-- C8 (witness): the amended rejection property at a concrete blank HTTP
turn — whitespace-only text is rejected with `EmptyMessage` and nothing
is persisted. -/
theorem C8_witness :
    http_chat_turn (some " ".data) [] true
        ⟨"chat".data, none, some "ok.".data, none, none⟩ false
      = ⟨some ValidationError.EmptyMessage, 0, [], [], []⟩ :=
  C8_amended.1 (some " ".data) [] true
    ⟨"chat".data, none, some "ok.".data, none, none⟩ false
    ValidationError.EmptyMessage (by decide)

/-! ## C1: which prefix is re-summarized -/

set_option maxRecDepth 8000 in
/-- C1 (counterexample): start from a 12-message conversation that
summarizes successfully, recording `pruned_count = 2` (messages 0 and 1
are absorbed into the summary).  After two more messages arrive, the next
summarization fires again — and the `older` slice it hands to the
generator is `messages[0:4]`: its first two entries are exactly the two
messages already absorbed (the slice starts at the head of the stored
history, not at the recorded boundary, whose first message differs). -/
theorem C1_counterexample :
    (process_conversation_context C1conv0 "hi".data C1llm).2.1 = true
    ∧ C1conv1.pruned_count = 2
    ∧ (process_conversation_context C1conv2 "hi".data C1llm).2.1 = true
    ∧ (messages_to_summarize (C1conv2.messages.map dbToDict)).take 2
        = (C1conv0.messages.map dbToDict).take 2
    ∧ (messages_to_summarize (C1conv2.messages.map dbToDict)).head?
        ≠ ((C1conv2.messages.map dbToDict).drop C1conv1.pruned_count).head? := by
  refine ⟨by decide, by decide, by decide, by decide, by decide⟩

/-- C1 (amended): whenever the inline step summarizes, the slice handed to
the summary generator is always the prefix `message_dicts[0 : len - 10]`
of the *entire* stored history — it never starts at the boundary recorded
by a previous summarization, so messages already counted by
`pruned_count` are sent to the summarizer again (with the previous
summary supplied as context), and `pruned_count` is overwritten with the
new slice length. -/
theorem C1_amended (conv : Conv) (new_user_message : Str) (llm : Except Str Str)
    (hocc : (process_conversation_context conv new_user_message llm).2.1 = true) :
    (process_conversation_context conv new_user_message llm).2.2.memory_summary
      = some (generate_summary (messages_to_summarize (conv.messages.map dbToDict))
          conv.memory_summary llm)
    ∧ (process_conversation_context conv new_user_message llm).2.2.pruned_count
      = (messages_to_summarize (conv.messages.map dbToDict)).length
    ∧ messages_to_summarize (conv.messages.map dbToDict)
      = (conv.messages.map dbToDict).take
          ((conv.messages.map dbToDict).length - RECENT_MESSAGES_COUNT) := by
  simp only [process_conversation_context] at hocc ⊢
  split_ifs at hocc ⊢ <;> simp_all [messages_to_summarize]

set_option maxRecDepth 8000 in
/-- C1 (witness): the amended description of the summarization step at the
concrete 12-message conversation. -/
theorem C1_witness :
    (process_conversation_context C1conv0 "hi".data C1llm).2.2.memory_summary
      = some (generate_summary
          (messages_to_summarize (C1conv0.messages.map dbToDict))
          C1conv0.memory_summary C1llm)
    ∧ (process_conversation_context C1conv0 "hi".data C1llm).2.2.pruned_count
      = (messages_to_summarize (C1conv0.messages.map dbToDict)).length
    ∧ messages_to_summarize (C1conv0.messages.map dbToDict)
      = (C1conv0.messages.map dbToDict).take
          ((C1conv0.messages.map dbToDict).length - RECENT_MESSAGES_COUNT) :=
  C1_amended C1conv0 "hi".data C1llm (by decide)
